import Mathlib

/-!
Verification development for the DVC NoteSmart application (src/app.py).

The application is a single-page tool that extracts text from uploaded
documents, assembles a meeting-notes prompt and issues one HTTP completion
call.  The shallow embedding below models the `DVCNoteSmart` class:

* external document-parsing libraries (PyPDF2, python-docx, python-pptx,
  pandas, PIL, pytesseract) and the representation of external objects
  (`str(...)` of an uploaded-file object, `str(...)` of a request
  exception) are modelled as an oracle record `ExternalLibs`;
* `st.warning` / `st.error` calls are modelled as emitted message lists;
* exceptions raised by the external parsers are modelled as `Except`
  values and the `try`/`except` blocks of the source as case analysis;
* temporary files created with `tempfile.NamedTemporaryFile(delete=False)`
  are tracked by counting how many of them are still on disk when
  `process_file` returns (`leakedTemps`).

Machine integers do not occur in the modelled fragment; all strings are
Lean `String`s (the modelled text is ASCII apart from the bullet
character, where Python `str` and Lean `String` agree).
-/

set_option maxRecDepth 40000

namespace DVC

/-! ### String containment -/

/-- Substring containment: `m` occurs contiguously inside `s`. -/
def strContains (s m : String) : Prop :=
  ∃ p q : String, s = p ++ m ++ q

/-- Executable substring test on character lists: does `m` occur
contiguously in the second argument? -/
def list_contains (m : List Char) : List Char → Bool
  | [] => m.isEmpty
  | c :: rest => m.isPrefixOf (c :: rest) || list_contains m rest

/-- Executable substring test on strings. -/
def str_contains_b (s m : String) : Bool :=
  list_contains m.data s.data

theorem list_contains_sound (m : List Char) :
    ∀ l : List Char, list_contains m l = true → ∃ p q, l = p ++ m ++ q := by
  intro l
  induction l with
  | nil =>
      intro h
      simp only [list_contains, List.isEmpty_iff] at h
      exact ⟨[], [], by simp [h]⟩
  | cons c rest ih =>
      intro h
      simp only [list_contains, Bool.or_eq_true] at h
      rcases h with h | h
      · rcases List.prefix_iff_eq_append.mp (List.isPrefixOf_iff_prefix.mp h) with hq
        exact ⟨[], List.drop m.length (c :: rest), by simpa using hq.symm⟩
      · rcases ih h with ⟨p, q, hpq⟩
        exact ⟨c :: p, q, by simp [hpq]⟩

theorem str_contains_b_sound (s m : String) (h : str_contains_b s m = true) :
    strContains s m := by
  rcases list_contains_sound m.data s.data h with ⟨p, q, hpq⟩
  refine ⟨⟨p⟩, ⟨q⟩, ?_⟩
  cases s with
  | mk d =>
      cases m with
      | mk md =>
          simp only [String.data] at hpq
          show String.mk d = String.mk ((p ++ md) ++ q)
          simp [hpq]

theorem strContains_append_right (s m b : String) (h : strContains s m) :
    strContains (s ++ b) m := by
  rcases h with ⟨p, q, rfl⟩
  exact ⟨p, q ++ b, by simp [String.append_assoc]⟩

theorem strContains_append_left (a s m : String) (h : strContains s m) :
    strContains (a ++ s) m := by
  rcases h with ⟨p, q, rfl⟩
  exact ⟨a ++ p, q, by simp [String.append_assoc]⟩

theorem strContains_suffix (a b : String) : strContains (a ++ b) b :=
  ⟨a, "", by rw [String.append_empty]⟩

/-! ### File extensions

`process_file` computes `os.path.splitext(uploaded_file.name)[1].lower()`.
`str_rfind` models Python `str.rfind` (index of the last occurrence,
`-1` when absent); `splitext` models `posixpath.splitext`: the extension
starts at the last dot, unless every character of the basename before
that dot is itself a dot. -/

def rfind_go (c : Char) : List Char → Nat → Int → Int
  | [], _, acc => acc
  | x :: xs, i, acc => rfind_go c xs (i + 1) (if x = c then Int.ofNat i else acc)

/-- Python `str.rfind` restricted to a single-character needle. -/
def str_rfind (s : List Char) (c : Char) : Int :=
  rfind_go c s 0 (-1)

/-- Python `os.path.splitext` (posix flavour: separator `/`, extension
separator `.`). -/
def splitext (p : String) : String × String :=
  let d := p.data
  let sepIndex := str_rfind d '/'
  let dotIndex := str_rfind d '.'
  if sepIndex < dotIndex then
    let fi := (sepIndex + 1).toNat
    let di := dotIndex.toNat
    if ((d.drop fi).take (di - fi)).any (fun c => c ≠ '.') then
      (⟨d.take di⟩, ⟨d.drop di⟩)
    else (p, "")
  else (p, "")

/-- Python `str.lower`, restricted to ASCII case mapping (the extensions
compared against are ASCII literals). -/
def py_lower (s : String) : String :=
  ⟨s.data.map Char.toLower⟩

/-- The dispatch key of `process_file`:
`os.path.splitext(uploaded_file.name)[1].lower()`. -/
def file_extension (name : String) : String :=
  py_lower (splitext name).2

/-- The extensions `process_file` dispatches on (every other extension
falls through all branches). -/
def supported_extensions : List String :=
  [".pdf", ".docx", ".doc", ".pptx", ".ppt", ".xlsx", ".xls", ".png", ".jpg", ".jpeg"]

/-! ### Python `json.dumps(..., indent=2)` on a string-valued dict

The prompt embeds `json.dumps(self.ccc_definitions, indent=2)`.  With the
default `ensure_ascii=True`, Python escapes the backslash, the double
quote, the short control escapes, every other character below `0x20` and
every character above `0x7e` (with surrogate pairs above `0xffff`), and
writes every other character verbatim.  Keys keep dict insertion order. -/

def hex_digit (n : Nat) : Char :=
  if n < 10 then Char.ofNat (48 + n) else Char.ofNat (87 + n)

def hex4 (n : Nat) : List Char :=
  [hex_digit (n / 4096 % 16), hex_digit (n / 256 % 16), hex_digit (n / 16 % 16),
    hex_digit (n % 16)]

def json_escape_char (c : Char) : List Char :=
  if c = '\\' then ['\\', '\\']
  else if c = '"' then ['\\', '"']
  else if c = '\n' then ['\\', 'n']
  else if c = '\r' then ['\\', 'r']
  else if c = '\t' then ['\\', 't']
  else if c.toNat = 8 then ['\\', 'b']
  else if c.toNat = 12 then ['\\', 'f']
  else if 32 ≤ c.toNat ∧ c.toNat ≤ 126 then [c]
  else if c.toNat < 65536 then '\\' :: 'u' :: hex4 c.toNat
  else
    ('\\' :: 'u' :: hex4 (55296 + (c.toNat - 65536) / 1024))
      ++ ('\\' :: 'u' :: hex4 (56320 + (c.toNat - 65536) % 1024))

def json_escape_list : List Char → List Char
  | [] => []
  | c :: rest => json_escape_char c ++ json_escape_list rest

/-- JSON string-body escaping as performed by `json.dumps` (without the
surrounding quotes). -/
def json_escape (s : String) : String :=
  ⟨json_escape_list s.data⟩

/-- One `  "key": "value"` line of the indent-2 serialization. -/
def json_entry (kv : String × String) : String :=
  "  \"" ++ json_escape kv.1 ++ "\": \"" ++ json_escape kv.2 ++ "\""

def json_entries : List (String × String) → String
  | [] => ""
  | [kv] => json_entry kv
  | kv :: kv2 :: rest => json_entry kv ++ ",\n" ++ json_entries (kv2 :: rest)

/-- Python `json.dumps(d, indent=2)` for a dict of strings. -/
def json_dumps_indent2 (d : List (String × String)) : String :=
  if d.isEmpty then "\x7b\x7d" else "\x7b\n" ++ json_entries d ++ "\n\x7d"

/-! ### The glossary `self.ccc_definitions`

Transcribed byte-for-byte from the source: the Python triple-quoted
values keep the 12-space indentation of their continuation lines. -/

def vision2030_def : String :=
  "The California Community Colleges Vision 2030 initiative - A strategic plan focusing on:"
  ++ "\n            - Closing equity gaps"
  ++ "\n            - Improving transfer rates"
  ++ "\n            - Increasing workforce alignment"
  ++ "\n            - Enhancing student success metrics"
  ++ "\n            - Implementing innovative teaching practices"

def ab928_def : String :=
  "Assembly Bill 928 (Student Transfer Achievement Reform Act of 2021):"
  ++ "\n            - Establishes a singular lower-division general education pathway"
  ++ "\n            - Creates the California General Education Transfer Curriculum (CalGETC)"
  ++ "\n            - Requires implementation by Fall 2025"
  ++ "\n            - Aims to streamline transfer between CCC, CSU, and UC systems"

def ftes_def : String :=
  "Full-Time Equivalent Student:"
  ++ "\n            - Key funding metric for California Community Colleges"
  ++ "\n            - Calculated as 525 hours of student instruction annually"
  ++ "\n            - Used for state funding allocations"
  ++ "\n            - Critical for budget planning and resource allocation"

def calgetc_def : String :=
  "California General Education Transfer Curriculum:"
  ++ "\n            - New unified GE pattern for UC/CSU transfer starting Fall 2025"
  ++ "\n            - Replaces IGETC and CSU GE Breadth"
  ++ "\n            - Requires 34 semester units"
  ++ "\n            - Includes Ethnic Studies requirement"
  ++ "\n            - Designed to simplify transfer process"

def igetc_def : String :=
  "Intersegmental General Education Transfer Curriculum:"
  ++ "\n            - Current transfer pattern for UC/CSU"
  ++ "\n            - Being replaced by CalGETC in Fall 2025"
  ++ "\n            - Important for transfer planning and articulation"

def title5_def : String :=
  "California Code of Regulations, Title 5:"
  ++ "\n            - Governs California Community Colleges"
  ++ "\n            - Establishes educational standards"
  ++ "\n            - Defines degree and certificate requirements"
  ++ "\n            - Sets policies for curriculum and instruction"

/-- The `self.ccc_definitions` dict, in insertion order. -/
def ccc_definitions : List (String × String) :=
  [("Vision 2030", vision2030_def), ("AB928", ab928_def), ("FTES", ftes_def),
    ("CalGETC", calgetc_def), ("IGETC", igetc_def), ("Title 5", title5_def)]

/-! ### Uploaded files and the external-library oracle -/

/-- An uploaded file object: a filename plus an opaque byte buffer
(`uploaded_file.name`, `uploaded_file.getvalue()`). -/
structure UploadedFile where
  name : String
  content : List Nat
deriving DecidableEq, Repr

/-- Behaviour of the external libraries on concrete byte buffers.  Each
parser either returns the text the source branch would assemble from it
or raises (`Except.error` carries `str(exception)`):

* `pdfExtract`: the `PyPDF2` loop — the concatenation of
  `page.extract_text() + "\n"` over all pages;
* `docExtract`: `"\n".join(paragraph.text for ...)` over a `docx.Document`;
* `pptExtract`: the `pptx.Presentation` loop — `shape.text + "\n"` over
  the shapes carrying text;
* `excelExtract`: `pd.read_excel(...).to_string()`;
* `imageOpen`: `PIL.Image.open` plus the RGB conversion, returning the
  PNG bytes that `image.save` will write (this stage runs before the
  second temp file exists);
* `ocrExtract`: `image.save` to the PNG temp file, the re-open and
  `pytesseract.image_to_string` (this stage runs after the second temp
  file exists);
* `showFile`: Python `str(...)` of the uploaded-file object, used by
  `_format_materials_list`;
* `httpErrorStr`: `str(...)` of the `HTTPError` that
  `raise_for_status()` raises for a given status code;
* `connErrorStr`: `str(...)` of a non-timeout `RequestException` raised
  by `requests.post` itself;
* `parseErrorStr`: `str(...)` of the exception raised while extracting
  `response.json()['content'][0]['text']`. -/
structure ExternalLibs where
  pdfExtract : List Nat → Except String String
  docExtract : List Nat → Except String String
  pptExtract : List Nat → Except String String
  excelExtract : List Nat → Except String String
  imageOpen : List Nat → Except String (List Nat)
  ocrExtract : List Nat → Except String String
  showFile : UploadedFile → String
  httpErrorStr : Nat → String
  connErrorStr : String
  parseErrorStr : String

/-- Result of one `process_file` call: the returned string, the number of
temporary files still on disk at return, and the `st.warning` messages
emitted. -/
structure ExtractResult where
  content : String
  leakedTemps : Nat
  warnings : List String
deriving DecidableEq, Repr

/-- The placeholder returned when the image branch fails. -/
def image_placeholder : String :=
  "Error: Could not extract text from image."

/-- `DVCNoteSmart.process_file`.  One temporary file is created up front
(`tempfile.NamedTemporaryFile(delete=False)`); `os.unlink(tmp_file_path)`
runs only when control reaches the end of the `try` block, so a parser
exception jumps to the `except` handler with the temp file still on
disk.  The image branch has its own inner `try`/`except` that converts
any failure into the placeholder string; a failure there after the PNG
temp file was created leaves that PNG on disk. -/
def process_file (E : ExternalLibs) (f : UploadedFile) : ExtractResult :=
  let ext := file_extension f.name
  let parserResult (r : Except String String) : ExtractResult :=
    match r with
    | .ok s => ⟨s, 0, []⟩
    | .error e => ⟨"", 1, ["Error processing " ++ f.name ++ ": " ++ e]⟩
  if ext = ".pdf" then parserResult (E.pdfExtract f.content)
  else if ext = ".docx" ∨ ext = ".doc" then parserResult (E.docExtract f.content)
  else if ext = ".pptx" ∨ ext = ".ppt" then parserResult (E.pptExtract f.content)
  else if ext = ".xlsx" ∨ ext = ".xls" then parserResult (E.excelExtract f.content)
  else if ext = ".png" ∨ ext = ".jpg" ∨ ext = ".jpeg" then
    match E.imageOpen f.content with
    | .error e => ⟨image_placeholder, 0, ["Image processing error: " ++ e]⟩
    | .ok png =>
      match E.ocrExtract png with
      | .error e => ⟨image_placeholder, 1, ["Image processing error: " ++ e]⟩
      | .ok s => ⟨s, 0, []⟩
  else ⟨"", 0, []⟩

/-- The `=== Content from {uploaded_file.name} ===` section header of
`process_all_files`. -/
def section_header (name : String) : String :=
  "\n\n=== Content from " ++ name ++ " ===\n"

/-- `DVCNoteSmart.process_all_files`: fold over the files in upload
order, appending a section header plus content for every file whose
content is truthy (non-empty). -/
def process_all_files (E : ExternalLibs) (files : List UploadedFile) : String :=
  files.foldl
    (fun acc f =>
      let content := (process_file E f).content
      if content ≠ "" then acc ++ section_header f.name ++ content else acc)
    ""

/-- The `st.warning` diagnostics emitted while `process_all_files`
runs, in order. -/
def process_all_files_warnings (E : ExternalLibs) (files : List UploadedFile) : List String :=
  (files.map fun f => (process_file E f).warnings).flatten

/-! ### `_format_materials_list` -/

def format_materials_go (E : ExternalLibs) : Nat → List UploadedFile → String
  | _, [] => ""
  | idx, m :: rest =>
      toString idx ++ ". " ++ E.showFile m ++ "\n" ++ format_materials_go E (idx + 1) rest

/-- `DVCNoteSmart._format_materials_list`: the fixed marker for an empty
list, otherwise a header line plus one 1-indexed `{idx}. {material}`
line per material (Python interpolates `str(material)`, i.e. the file
object itself, not its name). -/
def format_materials_list (E : ExternalLibs) (materials : List UploadedFile) : String :=
  if materials.isEmpty then "No additional materials provided"
  else "Uploaded Materials:\n" ++ format_materials_go E 1 materials

/-! ### The prompts of `process_notes`

The literals below are transcribed byte-for-byte from the triple-quoted
strings in `process_notes` (lines 352–417 of src/app.py), including the
12-space indentation that the Python source carries into the string, the
trailing space after "creating ", and the lines holding only 12 spaces. -/

def system_prompt : String :=
  "You are a professional note-taker for California Community Colleges, specializing in creating \n"
  ++ "            comprehensive, detailed meeting notes with rich narrative descriptions. Focus on:\n"
  ++ "            1. Providing extensive context for each discussion point\n"
  ++ "            2. Capturing the flow and evolution of discussions\n"
  ++ "            3. Explaining rationale behind decisions\n"
  ++ "            4. Using roles/functions instead of names\n"
  ++ "            5. Including specific examples while maintaining anonymity\n"
  ++ "            6. Preserving technical details and data points\n"
  ++ "            \n"
  ++ "            Format notes with:\n"
  ++ "            - Clear section headings\n"
  ++ "            - Detailed bullet points with complete context\n"
  ++ "            - Rich narrative descriptions\n"
  ++ "            - Specific examples and data\n"
  ++ "            - Decision rationale\n"
  ++ "            - Next steps and implications"

/-- The f-string text before `{meeting_type}`. -/
def meeting_prompt_part1 : String :=
  "Create detailed, narrative-style notes from this transcript following these requirements:\n"
  ++ "\n"
  ++ "            Meeting Context:\n"
  ++ "            - Type: "

/-- The f-string text between `{meeting_type}` and the materials list. -/
def meeting_prompt_part2 : String :=
  "\n            - Referenced Materials: "

/-- The f-string text between the materials list and the glossary dump. -/
def meeting_prompt_part3 : String :=
  "\n"
  ++ "\n"
  ++ "            Required Sections:\n"
  ++ "\n"
  ++ "            1. Quick Navigation\n"
  ++ "            - Links to major topics\n"
  ++ "            - Key decisions summary\n"
  ++ "            - Critical deadlines\n"
  ++ "\n"
  ++ "            2. Discussion Points\n"
  ++ "            For each major topic, include:\n"
  ++ "            • **Context & Background:** Detailed explanation of why this topic was discussed\n"
  ++ "            • **Key Updates:** Rich narrative descriptions of main points\n"
  ++ "            • **Challenges & Solutions:** Thorough exploration of issues raised and solutions proposed\n"
  ++ "            • **Decisions & Rationale:** Complete context for why decisions were made\n"
  ++ "            • **Implementation Details:** Specific steps and considerations\n"
  ++ "            • **Examples & Data:** Relevant numbers, scenarios, or cases discussed\n"
  ++ "            \n"
  ++ "            3. Action Items\n"
  ++ "            By responsible area (not individual):\n"
  ++ "            • Specific tasks with complete context\n"
  ++ "            • Dependencies and requirements\n"
  ++ "            • Resource needs\n"
  ++ "            • Success criteria\n"
  ++ "\n"
  ++ "            4. Next Steps\n"
  ++ "            • Upcoming work required\n"
  ++ "            • Preparation needed\n"
  ++ "            • Dependencies and timelines\n"
  ++ "\n"
  ++ "            Format Requirements:\n"
  ++ "            - Use rich narrative bullet points that tell complete stories\n"
  ++ "            - Include specific examples and data points\n"
  ++ "            - Maintain anonymity while preserving context\n"
  ++ "            - Bold key terms and concepts\n"
  ++ "            - Preserve technical details and numbers\n"
  ++ "            - Group related items logically\n"
  ++ "\n"
  ++ "            Reference these terms and definitions when relevant:\n"
  ++ "            "

/-- The f-string text between the glossary dump and `{text}`. -/
def meeting_prompt_part4 : String :=
  "\n"
  ++ "\n"
  ++ "            Meeting transcript to analyze:\n"
  ++ "\n"
  ++ "            "

/-- The `meeting_prompt` f-string of `process_notes`, applied to the
already-augmented transcript `text`. -/
def meeting_prompt (E : ExternalLibs) (meeting_type : String)
    (materials : List UploadedFile) (text : String) : String :=
  meeting_prompt_part1 ++ meeting_type ++ meeting_prompt_part2
    ++ format_materials_list E materials ++ meeting_prompt_part3
    ++ json_dumps_indent2 ccc_definitions ++ meeting_prompt_part4 ++ text

/-! ### Context and prompt assembly -/

/-- The `context` dict: `process_notes` reads the keys `date` and
`uploaded_materials` with `.get`, so both are optional. -/
structure Context where
  date : Option String := none
  uploaded_materials : Option (List UploadedFile) := none
deriving Repr

/-- Lines 344–350 of `process_notes`: when the materials list is truthy,
extract all files and, when the extracted blob is truthy, append it to
the transcript under the fixed separator. -/
def augmented_text (E : ExternalLibs) (text : String)
    (materials : List UploadedFile) : String :=
  if materials.isEmpty then text
  else
    let file_content := process_all_files E materials
    if file_content = "" then text
    else text ++ "\n\nContent from uploaded materials:\n" ++ file_content

set_option linter.unusedVariables false in
/-- The prompt-assembly slice of `process_notes` (lines 341–417): the
pair of the `system_prompt` and `meeting_prompt` strings that the
request body will carry.  `detail_level` is accepted exactly as
`process_notes` accepts it; the source never reads it while building the
prompts. -/
def build_prompts (E : ExternalLibs) (text meeting_type : String)
    (context : Option Context) (detail_level : String) : String × String :=
  let ctx := context.getD {}
  let materials := ctx.uploaded_materials.getD []
  (system_prompt, meeting_prompt E meeting_type materials (augmented_text E text materials))

/-! ### The completion call

`process_notes` issues one `requests.post(..., timeout=60)` and
classifies failures by displayed message.  `ApiJson` models a
successfully parsed `response.json()`: `repr` is Python `str(...)` of
the parsed value and `content0text` is `['content'][0]['text']` when
that chain of lookups succeeds. -/

structure ApiJson where
  repr : String
  content0text : Option String

/-- Outcome of the `requests.post` call:
`timeout` — `requests.exceptions.Timeout` raised;
`requestFailed` — some other `RequestException` raised by the post
itself (so the local `response` is never bound);
`response status json` — a response with the given status code, where
`json` is `none` when `response.json()` raises. -/
inductive HttpOutcome where
  | timeout : HttpOutcome
  | requestFailed : HttpOutcome
  | response : Nat → Option ApiJson → HttpOutcome

/-- The dict `process_notes` returns on success. -/
structure NotesResult where
  summary : String
  meeting_type : String
  context : Context
  detail_level : String
  model_version : String

def model_version : String := "claude-3-sonnet-20240229"

def request_timeout : Nat := 60

def request_max_tokens : Nat := 4096

def timeout_msg : String := "Request timed out. Please try again."

def rate_limit_msg : String := "Rate limit exceeded. Please wait a moment before trying again."

def auth_error_msg : String := "Invalid API key. Please check your credentials."

/-- Python `str(...)` of the `UnboundLocalError` hit when
`_handle_api_error(response)` is reached with `response` never bound. -/
def unbound_response_msg : String :=
  "cannot access local variable \x27response\x27 where it is not associated with a value"

/-- `DVCNoteSmart._handle_api_error`: the messages it displays for a
response with the given status code and parsed-JSON outcome. -/
def handle_api_error (status : Nat) (json : Option ApiJson) : List String :=
  (if status = 429 then [rate_limit_msg]
    else if status = 401 then [auth_error_msg]
    else [])
  ++ (match json with
      | some j => ["API Error Details: " ++ j.repr]
      | none => [])

set_option linter.unusedVariables false in
/-- `DVCNoteSmart.process_notes`: returns the optional result dict
together with the `st.warning`/`st.error` messages displayed, in order.
`requests.Response.raise_for_status` raises `HTTPError` exactly for
status codes in `[400, 600)`; that lands in the `RequestException`
handler, which prints `API Error: ...` and then lets
`_handle_api_error` classify the status.  A non-timeout exception from
`requests.post` itself reaches the same handler with `response` unbound,
so the `NameError` escapes to the outer handler.  A failure while
extracting `response.json()['content'][0]['text']` also reaches the
outer handler.  Every path returns through `return`; no exception
escapes.  The transcript `text` feeds only the prompt strings, which
`build_prompts` models; the request outcome is the oracle `out`. -/
def process_notes (E : ExternalLibs) (text meeting_type : String)
    (context : Option Context) (detail_level : String) (out : HttpOutcome) :
    Option NotesResult × List String :=
  let ctx := context.getD {}
  let materials := ctx.uploaded_materials.getD []
  let extraction_warnings :=
    if materials.isEmpty then [] else process_all_files_warnings E materials
  match out with
  | .timeout => (none, extraction_warnings ++ [timeout_msg])
  | .requestFailed =>
      (none, extraction_warnings
        ++ ["API Error: " ++ E.connErrorStr,
            "Error processing notes: " ++ unbound_response_msg])
  | .response status json =>
      if 400 ≤ status ∧ status < 600 then
        (none, extraction_warnings
          ++ ["API Error: " ++ E.httpErrorStr status]
          ++ handle_api_error status json)
      else
        match json with
        | some j =>
            match j.content0text with
            | some t =>
                (some ⟨t, meeting_type, ctx, detail_level, model_version⟩,
                  extraction_warnings)
            | none =>
                (none, extraction_warnings
                  ++ ["Error processing notes: " ++ E.parseErrorStr])
        | none =>
            (none, extraction_warnings
              ++ ["Error processing notes: " ++ E.parseErrorStr])

/-- The condition under which the completion call produces generated
text: a response whose status `raise_for_status` accepts and whose body
parse reaches `['content'][0]['text']`. -/
def api_success_text : HttpOutcome → Option String
  | .response status (some j) =>
      if 400 ≤ status ∧ status < 600 then none else j.content0text
  | _ => none

/-! ### Concrete fixtures for witnesses and counterexamples -/

/-- External libraries where every parser succeeds with empty output. -/
def ok_libs : ExternalLibs :=
  { pdfExtract := fun _ => .ok "", docExtract := fun _ => .ok "",
    pptExtract := fun _ => .ok "", excelExtract := fun _ => .ok "",
    imageOpen := fun _ => .ok [], ocrExtract := fun _ => .ok "",
    showFile := fun f => f.name, httpErrorStr := fun _ => "",
    connErrorStr := "", parseErrorStr := "" }

/-- External libraries where `PyPDF2.PdfReader` raises on every input,
as it does on a truncated or corrupt PDF. -/
def bad_pdf_libs : ExternalLibs :=
  { ok_libs with pdfExtract := fun _ => .error "EOF marker not found" }

/-- External libraries where `PIL.Image.open` raises on every input, as
it does on bytes that are not a valid image. -/
def ocr_fail_libs : ExternalLibs :=
  { ok_libs with imageOpen := fun _ => .error "cannot identify image file" }

/-- An uploaded file with a declared `.pdf` extension and bytes that are
not a well-formed PDF. -/
def pdf_file : UploadedFile := ⟨"minutes.pdf", [37, 80, 68, 70, 45]⟩

/-- An uploaded file with an unsupported extension. -/
def plain_file : UploadedFile := ⟨"notes.txt", [104, 105]⟩

/-- An uploaded file with a `.png` extension and non-image bytes. -/
def scan_file : UploadedFile := ⟨"scan.png", [0, 1, 2]⟩

/-! ### Claims -/

/-- C1: the claim says the user prompt's section template is selected by
the detail level, so that two otherwise-identical calls with
`detail_level = "standard"` and `detail_level = "detailed"` produce
different user prompts.  The code does the opposite: `process_notes`
builds its `meeting_prompt` inline (always the Quick Navigation /
Discussion Points / Action Items / Next Steps template) and never calls
`_create_meeting_prompt`, so the prompts are identical for every pair of
detail levels — here instantiated at "standard" versus "detailed" over
all remaining inputs. -/
theorem detail_level_never_changes_prompts (E : ExternalLibs)
    (text meeting_type : String) (context : Option Context) :
    build_prompts E text meeting_type context "standard"
      = build_prompts E text meeting_type context "detailed" := rfl

/-- C2: the claim says every temporary file materialized during a
`process_file` call is deleted on every exit path.  The code only
reaches `os.unlink(tmp_file_path)` when no parser raised: on a `.pdf`
file whose bytes make `PyPDF2.PdfReader` raise, control jumps to the
`except` handler, the call returns `""` normally, and the temporary
file written at the top of the call is left on disk. -/
theorem pdf_parse_error_leaks_temp_file :
    process_file bad_pdf_libs pdf_file
      = ⟨"", 1, ["Error processing minutes.pdf: EOF marker not found"]⟩ := by
  decide

/-- C5: for every uploaded file whose declared extension (lowercased) is
not one of the ten supported ones, `process_file` falls through every
dispatch branch and returns the empty string; no branch can raise, and
the temporary file is unlinked. -/
theorem unsupported_extension_returns_empty (E : ExternalLibs) (f : UploadedFile)
    (h : file_extension f.name ∉ supported_extensions) :
    (process_file E f).content = "" := by
  simp only [supported_extensions, List.mem_cons, List.not_mem_nil, or_false, not_or] at h
  obtain ⟨h1, h2, h3, h4, h5, h6, h7, h8, h9, h10⟩ := h
  simp [process_file, h1, h2, h3, h4, h5, h6, h7, h8, h9, h10]

/-- C5 witness: a `.txt` file is unsupported and extracts to the empty
string. -/
theorem unsupported_extension_returns_empty_witness :
    (process_file ok_libs plain_file).content = "" :=
  unsupported_extension_returns_empty ok_libs plain_file (by decide)

/-- C7: prompt building is deterministic — two invocations of the
prompt-assembly slice on equal transcripts, meeting types, contexts and
detail levels produce byte-identical system and user prompt strings. -/
theorem build_prompts_deterministic (E E' : ExternalLibs)
    (text text' meeting_type meeting_type' : String)
    (context context' : Option Context) (detail_level detail_level' : String)
    (hE : E = E') (ht : text = text') (hm : meeting_type = meeting_type')
    (hc : context = context') (hd : detail_level = detail_level') :
    build_prompts E text meeting_type context detail_level
      = build_prompts E' text' meeting_type' context' detail_level' := by
  subst hE ht hm hc hd
  rfl

/-- C7 witness: the determinism theorem applied at a concrete repeated
call. -/
theorem build_prompts_deterministic_witness :
    build_prompts ok_libs "T" "General" none "standard"
      = build_prompts ok_libs "T" "General" none "standard" :=
  build_prompts_deterministic ok_libs ok_libs "T" "T" "General" "General"
    none none "standard" "standard" rfl rfl rfl rfl rfl

/-- Spec-shaped aggregation (the `extractAll` contract of the spec): one
section per file in upload order, a `=== Content from {filename} ===`
header before each non-empty extraction, nothing for an empty one. -/
def extractAll_spec (E : ExternalLibs) : List UploadedFile → String
  | [] => ""
  | f :: rest =>
      (if (process_file E f).content = ""
        then ""
        else section_header f.name ++ (process_file E f).content)
      ++ extractAll_spec E rest

theorem process_all_files_go (E : ExternalLibs) (files : List UploadedFile) :
    ∀ acc : String,
      files.foldl
        (fun acc f =>
          let content := (process_file E f).content
          if content ≠ "" then acc ++ section_header f.name ++ content else acc)
        acc
      = acc ++ extractAll_spec E files := by
  induction files with
  | nil => intro acc; simp [extractAll_spec, String.append_empty]
  | cons f rest ih =>
      intro acc
      simp only [List.foldl_cons, extractAll_spec]
      rw [ih]
      by_cases h : (process_file E f).content = ""
      · simp [h, String.empty_append]
      · simp [h, String.append_assoc]

theorem extractAll_spec_all_empty (E : ExternalLibs) (files : List UploadedFile)
    (h : ∀ f ∈ files, (process_file E f).content = "") :
    extractAll_spec E files = "" := by
  induction files with
  | nil => rfl
  | cons f rest ih =>
      simp only [extractAll_spec, h f (List.mem_cons_self f rest),
        ih fun g hg => h g (List.mem_cons_of_mem f hg)]
      simp [String.empty_append]

/-- C3: `process_all_files` equals the spec-shaped aggregation — one
`\n\n=== Content from {filename} ===\n` header plus content per file
whose extraction is non-empty, concatenated in upload order, with empty
extractions contributing nothing — and it returns the empty string when
every file extracts to the empty string.  The function is total (every
per-file failure is already absorbed inside `process_file`), which is
the embedded form of "never raises". -/
theorem process_all_files_ordered_sections (E : ExternalLibs)
    (files : List UploadedFile) :
    process_all_files E files = extractAll_spec E files
      ∧ ((∀ f ∈ files, (process_file E f).content = "")
          → process_all_files E files = "") := by
  have hmain : process_all_files E files = extractAll_spec E files := by
    unfold process_all_files
    rw [process_all_files_go E files ""]
    exact String.empty_append _
  exact ⟨hmain, fun h => hmain.trans (extractAll_spec_all_empty E files h)⟩

/-- C3 witness: the theorem applied to a single file extracting to the
empty string. -/
theorem process_all_files_ordered_sections_witness :
    process_all_files ok_libs [plain_file] = "" :=
  (process_all_files_ordered_sections ok_libs [plain_file]).2
    (by intro f hf; simp only [List.mem_singleton] at hf; subst hf; decide)

/-- Failure of the image branch's inner `try`: either `PIL.Image.open`
(with the RGB conversion) raises, or OCR raises after the PNG temp file
was produced. -/
def ocr_failed (E : ExternalLibs) (f : UploadedFile) : Prop :=
  (∃ e, E.imageOpen f.content = .error e)
    ∨ (∃ png e, E.imageOpen f.content = .ok png ∧ E.ocrExtract png = .error e)

/-- C6: on an image file whose OCR processing fails, `process_file`
returns the fixed placeholder instead of propagating the failure; the
placeholder is non-empty, so `process_all_files` still emits a section
for that file (shown here on the singleton batch). -/
theorem image_ocr_failure_yields_placeholder (E : ExternalLibs)
    (f : UploadedFile)
    (hext : file_extension f.name ∈ [".png", ".jpg", ".jpeg"])
    (hfail : ocr_failed E f) :
    (process_file E f).content = image_placeholder
      ∧ image_placeholder ≠ ""
      ∧ process_all_files E [f] = section_header f.name ++ image_placeholder := by
  have hcontent : (process_file E f).content = image_placeholder := by
    have himg : file_extension f.name = ".png" ∨ file_extension f.name = ".jpg"
        ∨ file_extension f.name = ".jpeg" := by
      simpa using hext
    have hpdf : ¬ file_extension f.name = ".pdf" := by
      rcases himg with h | h | h <;> simp [h]
    have hdoc : ¬ (file_extension f.name = ".docx" ∨ file_extension f.name = ".doc") := by
      rcases himg with h | h | h <;> simp [h]
    have hppt : ¬ (file_extension f.name = ".pptx" ∨ file_extension f.name = ".ppt") := by
      rcases himg with h | h | h <;> simp [h]
    have hxls : ¬ (file_extension f.name = ".xlsx" ∨ file_extension f.name = ".xls") := by
      rcases himg with h | h | h <;> simp [h]
    rcases hfail with ⟨e, he⟩ | ⟨png, e, hok, he⟩
    · simp [process_file, hpdf, hdoc, hppt, hxls, himg, he]
    · simp [process_file, hpdf, hdoc, hppt, hxls, himg, hok, he]
  refine ⟨hcontent, by decide, ?_⟩
  have h1 := (process_all_files_ordered_sections E [f]).1
  rw [h1]
  simp only [extractAll_spec, hcontent]
  rw [if_neg (by decide), String.append_empty]

/-- C6 witness: a `.png` file on which `PIL.Image.open` raises extracts
to the placeholder string. -/
theorem image_ocr_failure_yields_placeholder_witness :
    (process_file ocr_fail_libs scan_file).content = image_placeholder :=
  (image_ocr_failure_yields_placeholder ocr_fail_libs scan_file (by decide)
    (Or.inl ⟨"cannot identify image file", rfl⟩)).1

/-- C4: the completion call classifies its failures by displayed
message: an HTTP 429 response makes `process_notes` display the
rate-limit message, a 401 response the invalid-credential message, and a
timeout of the 60-unit-bounded request the timeout message; in each of
the three failure cases the returned result is `none`, so no generated
text is returned. -/
theorem api_failures_classified (E : ExternalLibs) (text mt : String)
    (ctx : Option Context) (dl : String) (json : Option ApiJson) :
    request_timeout = 60
      ∧ (process_notes E text mt ctx dl (.response 429 json)).1 = none
      ∧ rate_limit_msg ∈ (process_notes E text mt ctx dl (.response 429 json)).2
      ∧ (process_notes E text mt ctx dl (.response 401 json)).1 = none
      ∧ auth_error_msg ∈ (process_notes E text mt ctx dl (.response 401 json)).2
      ∧ (process_notes E text mt ctx dl .timeout).1 = none
      ∧ timeout_msg ∈ (process_notes E text mt ctx dl .timeout).2 := by
  refine ⟨rfl, ?_, ?_, ?_, ?_, ?_, ?_⟩ <;>
    simp [process_notes, handle_api_error]

/-- C10: `process_notes` is a total function of its inputs (the embedded
form of "never raises": the two nested `except` handlers absorb every
modelled failure), and whenever the completion call does not produce
generated text — timeout, transport failure, an error status code, or a
response whose body parse fails — it returns `none`, with no partial
result. -/
theorem process_notes_failure_returns_none (E : ExternalLibs)
    (text mt : String) (ctx : Option Context) (dl : String)
    (out : HttpOutcome) (h : api_success_text out = none) :
    (process_notes E text mt ctx dl out).1 = none := by
  match out with
  | .timeout => simp [process_notes]
  | .requestFailed => simp [process_notes]
  | .response status none =>
      by_cases herr : 400 ≤ status ∧ status < 600 <;>
        simp [process_notes, herr]
  | .response status (some j) =>
      by_cases herr : 400 ≤ status ∧ status < 600
      · simp [process_notes, herr]
      · simp only [api_success_text, if_neg herr] at h
        simp [process_notes, herr, h]

/-- C10 witness: the theorem applied to a timed-out call. -/
theorem process_notes_failure_returns_none_witness :
    (process_notes ok_libs "T" "General" none "standard" .timeout).1 = none :=
  process_notes_failure_returns_none ok_libs "T" "General" none "standard"
    .timeout rfl

/-- C8: whenever the materials list read from the context is empty,
`_format_materials_list` returns the fixed marker and the user prompt
therefore contains the literal "No additional materials provided". -/
theorem empty_materials_prompt_has_marker (E : ExternalLibs)
    (text mt : String) (ctx : Option Context) (dl : String)
    (h : (ctx.getD {}).uploaded_materials.getD [] = []) :
    strContains (build_prompts E text mt ctx dl).2
      "No additional materials provided" := by
  simp only [build_prompts]
  rw [h]
  simp only [augmented_text, format_materials_list, meeting_prompt,
    List.isEmpty_nil, if_true]
  apply strContains_append_right
  apply strContains_append_right
  apply strContains_append_right
  apply strContains_append_right
  exact strContains_suffix _ _

/-- C8 witness: the theorem applied with no context dict at all (the
`context = None` default, which `.get` turns into the empty list). -/
theorem empty_materials_prompt_has_marker_witness :
    strContains (build_prompts ok_libs "T" "General" none "standard").2
      "No additional materials provided" :=
  empty_materials_prompt_has_marker ok_libs "T" "General" none "standard" rfl

theorem json_entry_contains_ftes :
    strContains (json_entry ("FTES", ftes_def))
      ("\"FTES\": \"" ++ json_escape ftes_def ++ "\"") := by
  refine ⟨"  ", "", ?_⟩
  rw [String.append_empty]
  simp only [json_entry]
  have hK : json_escape "FTES" = "FTES" := by decide
  rw [hK]
  have hlit : ("  \"" ++ "FTES" ++ "\": \"" : String) = "  " ++ "\"FTES\": \"" := by
    decide
  calc ("  \"" : String) ++ "FTES" ++ "\": \"" ++ json_escape ftes_def ++ "\""
      = (("  \"" ++ "FTES" ++ "\": \"") ++ json_escape ftes_def) ++ "\"" := rfl
    _ = (("  " ++ "\"FTES\": \"") ++ json_escape ftes_def) ++ "\"" := by rw [hlit]
    _ = "  " ++ ("\"FTES\": \"" ++ json_escape ftes_def ++ "\"") := by
        simp only [String.append_assoc]

theorem glossary_dump_contains_ftes :
    strContains (json_dumps_indent2 ccc_definitions)
      ("\"FTES\": \"" ++ json_escape ftes_def ++ "\"") := by
  show strContains ("\x7b\n" ++ json_entries ccc_definitions ++ "\n\x7d") _
  apply strContains_append_right
  apply strContains_append_left
  simp only [ccc_definitions, json_entries]
  apply strContains_append_left
  apply strContains_append_left
  apply strContains_append_right
  apply strContains_append_right
  exact json_entry_contains_ftes

/-- C9: for the transcript "Discussed budget for FY25." with no uploaded
files and detail level "standard", the built user prompt contains the
transcript verbatim, and contains the glossary term "FTES" followed by
its full multi-line definition (as the serialized glossary renders it). -/
theorem e2e_standard_prompt_contents (E : ExternalLibs) :
    strContains
        (build_prompts E "Discussed budget for FY25." "General" none "standard").2
        "Discussed budget for FY25."
      ∧ strContains
          (build_prompts E "Discussed budget for FY25." "General" none "standard").2
          ("\"FTES\": \"" ++ json_escape ftes_def ++ "\"") := by
  constructor
  · show strContains
      (meeting_prompt E "General" [] "Discussed budget for FY25.")
      "Discussed budget for FY25."
    simp only [meeting_prompt]
    exact strContains_suffix _ _
  · show strContains
      (meeting_prompt E "General" [] "Discussed budget for FY25.")
      ("\"FTES\": \"" ++ json_escape ftes_def ++ "\"")
    simp only [meeting_prompt]
    apply strContains_append_right
    apply strContains_append_right
    apply strContains_append_left
    exact glossary_dump_contains_ftes

end DVC
